import Mathlib

/-!
Shallow embedding of the smart-research-crew Stream Consumer
(src/frontend/src/Wizard.tsx and src/frontend/src/components/ReportForm.tsx)
and, where the backend source is absent, a spec-modelled Orchestrator.

The consumer is a React component; its observable behaviour is the fold
`(state, event) -> state` implemented by the EventSource callbacks
(`onopen`, `onmessage`, `onerror`) together with the retry helper
`connectWithRetry` and the session starter `startResearch`.  We embed the
React `useState` cells as fields of an explicit state record and each
callback as a pure state transformer.
-/

namespace SRC

/-- A source reference attached to a completed section
(`{ url: string; title: string }` in src/frontend/src/App.tsx). -/
structure Source where
  url : String
  title : String
  deriving Repr, DecidableEq

/-- `Section` from src/frontend/src/App.tsx: the consumer-side view of a
completed section (the spec's ClientSectionView). -/
structure Section where
  title : String
  content : String
  sources : List Source
  deriving Repr, DecidableEq

/-- `ConnectionState` from Wizard.tsx line 12 / ReportForm.tsx lines 13-18. -/
inductive ConnectionState where
  | disconnected
  | connecting
  | connected
  | error
  | reconnecting
  deriving Repr, DecidableEq

/-- The `type` discriminant of `SSEError` (Wizard.tsx lines 14-18). -/
inductive SSEErrorType where
  | connection
  | cors
  | timeout
  | server
  deriving Repr, DecidableEq

/-- `SSEError` from Wizard.tsx lines 14-18. -/
structure SSEError where
  type : SSEErrorType
  message : String
  details : Option String := none
  deriving Repr, DecidableEq

/-- `MAX_RETRIES` (Wizard.tsx line 32, ReportForm.tsx line 26). -/
def MAX_RETRIES : Nat := 3

/-- `RETRY_DELAYS` in milliseconds (Wizard.tsx line 33, ReportForm.tsx line 27). -/
def RETRY_DELAYS : List Nat := [1000, 3000, 5000]

/-- A parsed SSE event as the consumer's `onmessage` switch sees it: the
`type` field selects the variant and the other JSON fields are carried as
options (a missing field is `none`).  Any `type` outside the six known
strings is `unknown`. -/
inductive SSEData where
  | status (message : Option String) (progress : Option Nat)
  | section_start (sect : String) (progress : Option Nat)
  | section_complete (sect : String) (content : Option String)
      (sources : Option (List Source)) (progress : Option Nat)
  | section_error (sect : String) (error : String)
  | report_complete (content : Option String)
  | error (message : Option String)
  | unknown (type : String)
  deriving Repr, DecidableEq

/-- A raw frame delivered to `onmessage`: either its `data` fails
`JSON.parse` (carrying the stringified exception) or it parses into an
`SSEData`. -/
inductive RawMessage where
  | invalidJson (errStr : String)
  | valid (data : SSEData)
  deriving Repr, DecidableEq

/-- JavaScript `x || d` on an optional string field: `undefined` and the
empty string are falsy and give the default. -/
def jsOrStr : Option String → String → String
  | none, d => d
  | some s, d => if s = "" then d else s

/-- JavaScript `x || 0` on an optional numeric field: `undefined` gives 0
(and 0 gives 0, so `getD` is exact). -/
def jsOrNat (x : Option Nat) : Nat := x.getD 0

/-- JavaScript `x || []` on an optional array field: only `undefined` is
falsy (an empty array is truthy), so this is exactly `getD []`. -/
def jsOrList (x : Option (List Source)) : List Source := x.getD []

/-- The consumer component's state: each React `useState` cell of
Wizard.tsx (lines 39-47) as a field, plus `streamOpen` modelling whether
the current `EventSource` has been `close()`d, and the immutable form
inputs (`topic`, `guidelines`, `sectionTitles`) that `startResearch`
reads. -/
structure ConsumerState where
  topic : String
  guidelines : String
  sectionTitles : List String
  sections : List Section
  reportMd : String
  running : Bool
  status : String
  progress : Nat
  connectionState : ConnectionState
  connectionError : Option SSEError
  retryCount : Nat
  streamOpen : Bool
  deriving Repr, DecidableEq

/-- The `section_complete` insertion of Wizard.tsx lines 138-147 (identical
in ReportForm.tsx lines 121-130): look up an existing view by title with
`prev.find(s => s.title === data.section)`; if found return `prev`
unchanged, else append the new view. -/
def insertSection (prev : List Section) (title content : String)
    (sources : List Source) : List Section :=
  match prev.find? (fun s => s.title == title) with
  | some _ => prev
  | none => prev ++ [{ title := title, content := content, sources := sources }]

/-- The event dispatch of Wizard.tsx `onmessage` (lines 119-181): one case
per `type`, `default` only logs a warning. -/
def handleEventWizard (st : ConsumerState) : SSEData → ConsumerState
  | .status message progress =>
      { st with status := jsOrStr message "Processing...",
                progress := jsOrNat progress }
  | .section_start sect progress =>
      { st with status := "Researching: " ++ sect,
                progress := jsOrNat progress }
  | .section_complete sect content sources progress =>
      { st with sections := insertSection st.sections sect
                  (jsOrStr content "") (jsOrList sources),
                status := "Completed: " ++ sect,
                progress := jsOrNat progress }
  | .section_error _ _ => st
  | .report_complete content =>
      { st with reportMd := jsOrStr content "",
                running := false,
                connectionState := .disconnected,
                streamOpen := false }
  | .error message =>
      { st with connectionState := .error,
                connectionError := some
                  { type := .server,
                    message := jsOrStr message "Research failed",
                    details := some "Server encountered an error during research" },
                streamOpen := false,
                running := false }
  | .unknown _ => st

/-- The event dispatch of ReportForm.tsx `onmessage` (lines 109-152): like
the Wizard's but its switch has no `section_error` case and no `default`
branch, so both fall through with no state change. -/
def handleEventReportForm (st : ConsumerState) : SSEData → ConsumerState
  | .status message progress =>
      { st with status := jsOrStr message "Processing...",
                progress := jsOrNat progress }
  | .section_start sect progress =>
      { st with status := "Researching: " ++ sect,
                progress := jsOrNat progress }
  | .section_complete sect content sources progress =>
      { st with sections := insertSection st.sections sect
                  (jsOrStr content "") (jsOrList sources),
                status := "Completed: " ++ sect,
                progress := jsOrNat progress }
  | .section_error _ _ => st
  | .report_complete content =>
      { st with reportMd := jsOrStr content "",
                running := false,
                connectionState := .disconnected,
                streamOpen := false }
  | .error message =>
      { st with connectionState := .error,
                connectionError := some
                  { type := .server,
                    message := jsOrStr message "Research failed",
                    details := some "Server encountered an error during research" },
                streamOpen := false,
                running := false }
  | .unknown _ => st

/-- Wizard.tsx `onmessage` (lines 113-190): `JSON.parse` inside
`try`/`catch`; parse failure is caught and recorded as a `server`
connection error with message "Invalid server response format" and
`details: String(err)`; nothing else changes and nothing is thrown. -/
def onmessageWizard (st : ConsumerState) : RawMessage → ConsumerState
  | .invalidJson errStr =>
      let e : SSEError :=
        { type := .server,
          message := "Invalid server response format",
          details := some errStr }
      { st with connectionError := some e }
  | .valid data => handleEventWizard st data

/-- ReportForm.tsx `onmessage` (lines 105-160), same catch clause. -/
def onmessageReportForm (st : ConsumerState) : RawMessage → ConsumerState
  | .invalidJson errStr =>
      let e : SSEError :=
        { type := .server,
          message := "Invalid server response format",
          details := some errStr }
      { st with connectionError := some e }
  | .valid data => handleEventReportForm st data

/-- Message delivery through the `EventSource`: a browser delivers a frame
to `onmessage` only while the source has not been `close()`d. -/
def deliverWizard (st : ConsumerState) (m : RawMessage) : ConsumerState :=
  if st.streamOpen then onmessageWizard st m else st

/-- Wizard.tsx `onopen` (lines 106-111): mark connected, clear any
connection error, reset the retry counter (ReportForm.tsx lines 99-103 is
identical). -/
def onopen (st : ConsumerState) : ConsumerState :=
  { st with connectionState := .connected,
            connectionError := none,
            retryCount := 0 }

/-- The request that `startResearch` submits: query parameters built in
Wizard.tsx lines 85-90 from the form inputs — section titles are filtered
by `t.trim()` truthiness (blank titles dropped) and joined with commas.
There is no further field: in particular no resumption token. -/
structure Request where
  topic : String
  guidelines : String
  sections : String
  deriving Repr, DecidableEq

/-- Build the request of Wizard.tsx lines 85-90 from the current inputs. -/
def buildRequest (topic guidelines : String) (sectionTitles : List String) :
    Request :=
  { topic := topic,
    guidelines := guidelines,
    sections := String.intercalate ","
      (sectionTitles.filter (fun t => t.trim ≠ "")) }

/-- Wizard.tsx `startResearch` (lines 80-104), state effects up to the
point where the new `EventSource` is created: set running, enter
`connecting`, clear the connection error, close any existing stream and
open a fresh one for `buildRequest` of the unchanged inputs.  `sections`,
`reportMd`, `status`, `progress`, `retryCount` are not touched. -/
def startResearch (st : ConsumerState) : ConsumerState × Request :=
  ({ st with running := true,
             connectionState := .connecting,
             connectionError := none,
             streamOpen := true },
   buildRequest st.topic st.guidelines st.sectionTitles)

/-- Wizard.tsx `connectWithRetry` (lines 60-78): with `retryAttempt ≥ 3`
enter the terminal error state, stop running and schedule nothing;
otherwise schedule `startResearch` after `RETRY_DELAYS[retryAttempt] ||
5000` ms, bumping `retryCount` to `retryAttempt + 1` and entering
`reconnecting`.  The returned `Option Nat` is the scheduled delay (`none` =
no attempt scheduled). -/
def connectWithRetry (st : ConsumerState) (retryAttempt : Nat) :
    ConsumerState × Option Nat :=
  if retryAttempt ≥ MAX_RETRIES then
    ({ st with connectionState := .error,
               connectionError := some
                 { type := .connection,
                   message := "Max retry attempts reached",
                   details := some "Failed after 3 attempts" },
               running := false },
     none)
  else
    ({ st with retryCount := retryAttempt + 1,
               connectionState := .reconnecting },
     some (RETRY_DELAYS.getD retryAttempt 5000))

/-- Wizard.tsx `onerror` with `readyState === CLOSED` (lines 204-210, 220):
a transport fault on a server-terminated stream sets the error state,
records a connection error and stops running. -/
def onerrorClosed (st : ConsumerState) : ConsumerState :=
  { st with connectionState := .error,
            connectionError := some
              { type := .connection,
                message := "Connection closed by server",
                details := none },
            running := false }

/-- A maximal retry episode in which every connection attempt suffers a
transport fault: starting from the current state, repeatedly invoke
`connectWithRetry` with the current `retryCount` (exactly what the "Retry
Connection" button of Wizard.tsx line 330 passes); when an attempt is
scheduled, record its delay, run `startResearch` and let the new stream
fault (`onerrorClosed`); stop when `connectWithRetry` schedules nothing.
`fuel` bounds the recursion (the counter strictly increases, so fuel 4
already reaches the fixed point from `retryCount = 0`). -/
def retryEpisode : Nat → ConsumerState → List Nat × ConsumerState
  | 0, st => ([], st)
  | fuel + 1, st =>
    let p := connectWithRetry st st.retryCount
    match p.2 with
    | some d =>
      let st2 := onerrorClosed (startResearch p.1).1
      let r := retryEpisode fuel st2
      (d :: r.1, r.2)
    | none => ([], p.1)

/-- Fold a list of raw frames into the Wizard consumer, one `onmessage`
invocation per frame. -/
def applyAllWizard (st : ConsumerState) (ms : List RawMessage) : ConsumerState :=
  ms.foldl onmessageWizard st

/-! ### Spec-modelled Research Orchestrator

The backend that implements the Research Orchestrator is not present in
the repository checkout (only a disabled backend test exists), so the
orchestrator is modelled from the spec, §4.1. -/

/-- Modelled from the spec: the outcome of one Section Job Runner
invocation (§4.1 step 3, §6 "Section research capability"):
`{content, sources}` on success or a failure reason. -/
inductive SectionOutcome where
  | completed (content : String) (sources : List Source)
  | failed (reason : String)
  deriving Repr, DecidableEq

/-- Modelled from the spec: the Orchestrator's StreamEvent variants in
wire-format terms (§3 StreamEvent, §6 event wire format). -/
inductive OrchEvent where
  | status (message : String) (progress : Nat)
  | section_start (sect : String) (progress : Nat)
  | section_complete (sect : String) (content : String)
      (sources : List Source) (progress : Nat)
  | section_error (sect : String) (reason : String)
  | report_complete (content : String)
  | error (message : String)
  deriving Repr, DecidableEq

/-- Modelled from the spec: the resolution event of one section (§4.1
step 3) — `section_complete` on success, `section_error` on failure; the
completion progress reserves the final increment for report assembly
(§3). -/
def resolutionEvent (resolve : String → SectionOutcome) (n i : Nat)
    (t : String) : OrchEvent :=
  match resolve t with
  | .completed c s => .section_complete t c s ((i + 1) * 100 / (n + 1))
  | .failed r => .section_error t r

/-- Modelled from the spec: the per-section event pairs in request order
(§4.1 step 3) — `section_start` immediately before each job,
`section_complete`/`section_error` after it resolves. -/
def sectionEvents (resolve : String → SectionOutcome) (n : Nat) :
    Nat → List String → List OrchEvent
  | _, [] => []
  | i, t :: ts =>
      .section_start t (i * 100 / (n + 1)) ::
      resolutionEvent resolve n i t ::
      sectionEvents resolve n (i + 1) ts

/-- Modelled from the spec: the ordered list of Completed sections handed
to the Report Compiler (§4.1 step 5); Failed sections are omitted. -/
def completedSections (resolve : String → SectionOutcome) :
    List String → List (String × String × List Source)
  | [] => []
  | t :: ts =>
      match resolve t with
      | .completed c s => (t, c, s) :: completedSections resolve ts
      | .failed _ => completedSections resolve ts

/-- Modelled from the spec: `StartSession` of the Research Orchestrator
(§4.1) as the full event sequence, with the section-research and
report-assembly capabilities abstracted as `resolve` and `assemble`.
Invalid requests (empty topic, zero or more than `maxSections` titles,
duplicate titles) yield an immediate Fatal event and no jobs (step 1);
otherwise an initial Status (step 2), the per-section events (steps 3-4),
and the terminal event (steps 5-6): `report_complete` over the completed
sections when at least one section succeeded, a fatal `error` when none
did. -/
def orchestrate (maxSections : Nat)
    (assemble : List (String × String × List Source) → String)
    (resolve : String → SectionOutcome)
    (topic : String) (titles : List String) : List OrchEvent :=
  if topic = "" ∨ titles.length = 0 ∨ maxSections < titles.length ∨
      ¬ titles.Nodup then
    [.error "Invalid request"]
  else
    .status "Starting research" 0 ::
    (sectionEvents resolve titles.length 0 titles ++
      (match completedSections resolve titles with
       | [] => [.error "All sections failed"]
       | cs => [.report_complete (assemble cs)]))

/-! ### Helper lemmas -/

/-- If a view with the given title is already recorded, `insertSection`
returns the list unchanged (the `if (existing) return prev` branch). -/
theorem insertSection_of_found {prev : List Section} {t : String}
    (h : (prev.find? (fun v => v.title == t)).isSome) (c : String)
    (s : List Source) : insertSection prev t c s = prev := by
  unfold insertSection
  cases hf : prev.find? (fun v => v.title == t) with
  | none => rw [hf] at h; simp at h
  | some w => simp [hf]

/-- An already-recorded view survives any later `insertSection`, whatever
title it inserts: `find?` still returns the original view. -/
theorem find?_insertSection {prev : List Section} {t : String} {v : Section}
    (h : prev.find? (fun x => x.title == t) = some v) (t' c : String)
    (s : List Source) :
    (insertSection prev t' c s).find? (fun x => x.title == t) = some v := by
  unfold insertSection
  cases hf : prev.find? (fun x => x.title == t') with
  | some w => simpa [hf] using h
  | none => simp [hf, List.find?_append, h]

/-- `insertSection` preserves "at most one view per title". -/
theorem countP_insertSection_le {prev : List Section} {t' : String}
    (h : prev.countP (fun v => v.title == t') ≤ 1) (t c : String)
    (s : List Source) :
    (insertSection prev t c s).countP (fun v => v.title == t') ≤ 1 := by
  unfold insertSection
  cases hf : prev.find? (fun v => v.title == t) with
  | some w => simpa [hf] using h
  | none =>
      have hz : ∀ v ∈ prev, ¬ (v.title == t) = true := List.find?_eq_none.mp hf
      by_cases he : t = t'
      · have h0 : prev.countP (fun v => v.title == t') = 0 := by
          rw [List.countP_eq_zero]
          intro a ha
          subst he
          exact hz a ha
        simp [hf, List.countP_append, h0, List.countP_cons, he]
      · have hx : ((⟨t, c, s⟩ : Section).title == t') = false := by
          simp only [beq_eq_false_iff_ne, ne_eq]
          exact he
        simp [hf, List.countP_append, List.countP_cons, hx]
        exact h

/-- Every `onmessage` step either leaves the section list unchanged or
applies `insertSection` to it. -/
theorem sections_onmessageWizard (st : ConsumerState) (m : RawMessage) :
    (onmessageWizard st m).sections = st.sections ∨
    ∃ t c s, (onmessageWizard st m).sections = insertSection st.sections t c s := by
  cases m with
  | invalidJson e => left; rfl
  | valid d =>
      cases d with
      | section_complete sect content sources progress =>
          right; exact ⟨sect, jsOrStr content "", jsOrList sources, rfl⟩
      | status m p => left; rfl
      | section_start s p => left; rfl
      | section_error s e => left; rfl
      | report_complete c => left; rfl
      | error m => left; rfl
      | unknown t => left; rfl

/-- A recorded view survives the whole remaining stream: folding any list
of raw frames never changes or removes it. -/
theorem find?_applyAllWizard {st : ConsumerState} {t : String} {v : Section}
    (h : st.sections.find? (fun x => x.title == t) = some v)
    (ms : List RawMessage) :
    ((applyAllWizard st ms).sections.find? (fun x => x.title == t)) = some v := by
  induction ms generalizing st with
  | nil => exact h
  | cons m ms ih =>
      show ((applyAllWizard (onmessageWizard st m) ms).sections.find?
        (fun x => x.title == t)) = some v
      apply ih
      rcases sections_onmessageWizard st m with hs | ⟨t', c, s, hs⟩
      · rw [hs]; exact h
      · rw [hs]; exact find?_insertSection h t' c s

/-- Folding any list of raw frames preserves "at most one view per
title". -/
theorem countP_applyAllWizard {st : ConsumerState}
    (h : ∀ t', st.sections.countP (fun x => x.title == t') ≤ 1)
    (ms : List RawMessage) :
    ∀ t', (applyAllWizard st ms).sections.countP (fun x => x.title == t') ≤ 1 := by
  induction ms generalizing st with
  | nil => exact h
  | cons m ms ih =>
      show ∀ t', ((applyAllWizard (onmessageWizard st m) ms).sections.countP
        (fun x => x.title == t')) ≤ 1
      apply ih
      intro t'
      rcases sections_onmessageWizard st m with hs | ⟨t0, c, s, hs⟩
      · rw [hs]; exact h t'
      · rw [hs]; exact countP_insertSection_le (h t') t0 c s

/-- Once the retry counter has reached the budget, no episode schedules a
further attempt, whatever the fuel. -/
theorem retryEpisode_stops {st : ConsumerState}
    (h : MAX_RETRIES ≤ st.retryCount) :
    ∀ fuel, (retryEpisode fuel st).1 = [] := by
  intro fuel
  cases fuel with
  | zero => rfl
  | succ n =>
      simp only [retryEpisode, connectWithRetry, ge_iff_le, if_pos h]

/-- A concrete mid-session consumer state: connected, running, one view
already recorded, fresh retry counter. -/
def sampleState : ConsumerState :=
  { topic := "AI in Healthcare",
    guidelines := "",
    sectionTitles := ["Introduction", "Conclusion"],
    sections := [{ title := "Introduction", content := "intro text", sources := [] }],
    reportMd := "",
    running := true,
    status := "",
    progress := 33,
    connectionState := .connected,
    connectionError := none,
    retryCount := 0,
    streamOpen := true }

/-! ### Claim theorems -/

/-- C1: Idempotent insertion — after any sequence of incoming frames, a
`section_complete` event whose title already has a recorded
ClientSectionView leaves the section list unchanged (in the Wizard and in
ReportForm); the first recorded view for a title survives any further
frames unchanged (first write wins, later events never overwrite its
content or sources); and each title has at most one view. -/
theorem C1_idempotent_insertion (st0 : ConsumerState) (ms : List RawMessage)
    (t : String) (c : Option String) (srcs : Option (List Source))
    (p : Option Nat) (v : Section)
    (hv : (applyAllWizard st0 ms).sections.find? (fun x => x.title == t) = some v)
    (hu : ∀ t', st0.sections.countP (fun x => x.title == t') ≤ 1) :
    (handleEventWizard (applyAllWizard st0 ms)
        (.section_complete t c srcs p)).sections
      = (applyAllWizard st0 ms).sections
    ∧ (handleEventReportForm (applyAllWizard st0 ms)
        (.section_complete t c srcs p)).sections
      = (applyAllWizard st0 ms).sections
    ∧ (∀ ms', ((applyAllWizard (applyAllWizard st0 ms) ms').sections.find?
        (fun x => x.title == t)) = some v)
    ∧ (∀ t', (applyAllWizard st0 ms).sections.countP
        (fun x => x.title == t') ≤ 1) := by
  have hsome : ((applyAllWizard st0 ms).sections.find?
      (fun x => x.title == t)).isSome := by rw [hv]; rfl
  exact ⟨insertSection_of_found hsome _ _,
    insertSection_of_found hsome _ _,
    fun ms' => find?_applyAllWizard hv ms',
    countP_applyAllWizard hu ms⟩

/-- C1 witness: in a concrete state that already holds a view for
"Introduction" (after one redelivered `section_complete` frame), another
`section_complete` for the same title changes nothing. -/
theorem C1_idempotent_insertion_witness :
    ((applyAllWizard sampleState
        [.valid (.section_complete "Introduction" (some "redelivered") none none)]).sections.find?
        (fun x => x.title == "Introduction"))
      = some { title := "Introduction", content := "intro text", sources := [] }
    ∧ (handleEventWizard
        (applyAllWizard sampleState
          [.valid (.section_complete "Introduction" (some "redelivered") none none)])
        (.section_complete "Introduction" (some "again") none none)).sections
      = (applyAllWizard sampleState
          [.valid (.section_complete "Introduction" (some "redelivered") none none)]).sections :=
  ⟨by decide,
   (C1_idempotent_insertion sampleState
      [.valid (.section_complete "Introduction" (some "redelivered") none none)]
      "Introduction" (some "again") none none
      { title := "Introduction", content := "intro text", sources := [] }
      (by decide)
      (fun t' => le_trans (List.countP_le_length _) (by decide))).1⟩

/-- C2: Retry budget — from a fresh retry counter, an episode in which
every attempt suffers a transport fault schedules exactly three
reconnection attempts, with strictly increasing backoff delays 1000 ms,
3000 ms, 5000 ms, ends in the Error state with `running` off, and no
further attempt is ever scheduled afterward. -/
theorem C2_retry_budget (st : ConsumerState) (h : st.retryCount = 0) :
    (retryEpisode 4 st).1 = [1000, 3000, 5000]
    ∧ List.Chain' (· < ·) (retryEpisode 4 st).1
    ∧ (retryEpisode 4 st).2.connectionState = .error
    ∧ (retryEpisode 4 st).2.running = false
    ∧ ∀ fuel, (retryEpisode fuel (retryEpisode 4 st).2).1 = [] := by
  obtain ⟨tp, gu, ti, se, re, ru, sta, pr, cs, ce, rc, so⟩ := st
  have h' : rc = 0 := h
  subst h'
  refine ⟨rfl, ?_, rfl, rfl, fun fuel => retryEpisode_stops ?_ fuel⟩
  · show List.Chain' (· < ·) [1000, 3000, 5000]
    simp only [List.chain'_cons, List.chain'_singleton, and_true]
    omega
  · show MAX_RETRIES ≤ (3 : Nat)
    exact le_refl 3

/-- C2 witness: the episode from the concrete fresh state. -/
theorem C2_retry_budget_witness :
    sampleState.retryCount = 0
    ∧ (retryEpisode 4 sampleState).1 = [1000, 3000, 5000]
    ∧ (retryEpisode 4 sampleState).2.connectionState = .error :=
  ⟨rfl, (C2_retry_budget sampleState rfl).1,
    (C2_retry_budget sampleState rfl).2.2.1⟩

/-- C3: On `report_complete` while connected, the consumer stores the
event's content as the final document, stops running, transitions to
Disconnected, and closes the stream itself; with the stream closed, no
later frame changes the state. -/
theorem C3_report_complete (st : ConsumerState) (c : Option String)
    (h : st.connectionState = .connected) :
    onmessageWizard st (.valid (.report_complete c)) =
      { st with reportMd := jsOrStr c "",
                running := false,
                connectionState := .disconnected,
                streamOpen := false }
    ∧ onmessageReportForm st (.valid (.report_complete c)) =
      { st with reportMd := jsOrStr c "",
                running := false,
                connectionState := .disconnected,
                streamOpen := false }
    ∧ ∀ m, deliverWizard (onmessageWizard st (.valid (.report_complete c))) m
        = onmessageWizard st (.valid (.report_complete c)) :=
  ⟨rfl, rfl, fun _ => rfl⟩

/-- C3 witness: the transition at the concrete connected state. -/
theorem C3_report_complete_witness :
    sampleState.connectionState = .connected
    ∧ onmessageWizard sampleState (.valid (.report_complete (some "# Final report"))) =
      { sampleState with reportMd := "# Final report",
                         running := false,
                         connectionState := .disconnected,
                         streamOpen := false } :=
  ⟨rfl, (C3_report_complete sampleState (some "# Final report") rfl).1⟩

/-- C4 counterexample: receiving a fatal application event (wire type
`error`) while connected does NOT transition the connection state to
Disconnected — the handler sets it to Error (Wizard.tsx line 169,
ReportForm.tsx line 143). -/
theorem C4_error_event_counterexample :
    sampleState.connectionState = .connected
    ∧ (onmessageWizard sampleState
        (.valid (.error (some "Research failed: all sections failed")))).connectionState
      = .error
    ∧ (onmessageWizard sampleState
        (.valid (.error (some "Research failed: all sections failed")))).connectionState
      ≠ .disconnected :=
  ⟨rfl, rfl, by decide⟩

/-- C4 (amended): On a fatal application event (wire type `error`) while
connected, the consumer treats it as a reported failure, not a transport
retry trigger: it records the server error, closes the stream, stops
running, transitions Connected → Error, leaves the retry counter alone and
schedules no reconnection attempt; with the stream closed, no later frame
changes the state. -/
theorem C4_error_event (st : ConsumerState) (m : Option String)
    (h : st.connectionState = .connected) :
    onmessageWizard st (.valid (.error m)) =
      { st with connectionState := .error,
                connectionError := some
                  { type := .server,
                    message := jsOrStr m "Research failed",
                    details := some "Server encountered an error during research" },
                streamOpen := false,
                running := false }
    ∧ onmessageReportForm st (.valid (.error m)) =
      { st with connectionState := .error,
                connectionError := some
                  { type := .server,
                    message := jsOrStr m "Research failed",
                    details := some "Server encountered an error during research" },
                streamOpen := false,
                running := false }
    ∧ (∀ mm, deliverWizard (onmessageWizard st (.valid (.error m))) mm
        = onmessageWizard st (.valid (.error m)))
    ∧ (onmessageWizard st (.valid (.error m))).retryCount = st.retryCount :=
  ⟨rfl, rfl, fun _ => rfl, rfl⟩

/-- C4 witness: the amended transition at the concrete connected state. -/
theorem C4_error_event_witness :
    sampleState.connectionState = .connected
    ∧ (onmessageWizard sampleState (.valid (.error (some "boom")))).retryCount
      = sampleState.retryCount :=
  ⟨rfl, (C4_error_event sampleState (some "boom") rfl).2.2.2⟩

/-- C5: Each reconnection attempt resubmits the entire original request —
`connectWithRetry` below the budget schedules an attempt with the listed
delay, and the attempt's `startResearch` closes the old stream, opens a
fresh one, and submits exactly the request built from the unchanged topic,
guidelines and section titles (a `Request` carries nothing else — no
resumption token); the accumulated section views are retained. -/
theorem C5_reconnect_resubmits (st : ConsumerState) (k : Nat)
    (h : k < MAX_RETRIES) :
    (connectWithRetry st k).2 = some (RETRY_DELAYS.getD k 5000)
    ∧ (connectWithRetry st k).1.sections = st.sections
    ∧ (startResearch (connectWithRetry st k).1).2
      = buildRequest st.topic st.guidelines st.sectionTitles
    ∧ (startResearch (connectWithRetry st k).1).2 = (startResearch st).2
    ∧ (startResearch (connectWithRetry st k).1).1.sections = st.sections
    ∧ (startResearch (connectWithRetry st k).1).1.streamOpen = true := by
  have hn : ¬ k ≥ MAX_RETRIES := not_le.mpr h
  simp only [connectWithRetry, if_neg hn, startResearch]
  simp

/-- C5 witness: the first reconnection attempt from the concrete state
resubmits the original request with the recorded views intact. -/
theorem C5_reconnect_resubmits_witness :
    (0 : Nat) < MAX_RETRIES
    ∧ (startResearch (connectWithRetry sampleState 0).1).2
      = buildRequest sampleState.topic sampleState.guidelines
          sampleState.sectionTitles
    ∧ (startResearch (connectWithRetry sampleState 0).1).1.sections
      = sampleState.sections :=
  ⟨by decide,
   (C5_reconnect_resubmits sampleState 0 (by decide)).2.2.1,
   (C5_reconnect_resubmits sampleState 0 (by decide)).2.2.2.2.1⟩

/-- C6 counterexample: on `section_error` the consumer records nothing at
all — the entire component state is unchanged (the Wizard only calls
`console.error`; its comment "Could add error display here" concedes no
failure display exists), so no failure is recorded for display. -/
theorem C6_section_error_counterexample :
    onmessageWizard sampleState (.valid (.section_error "Conclusion" "timeout"))
      = sampleState := rfl

/-- C6 (amended): On `section_error` the consumer changes no state at all
(it only logs to the console; no failure is recorded for display): the
section list, report text, running flag and connection state — and every
other field — are unchanged, in the Wizard and in ReportForm. -/
theorem C6_section_error_noop (st : ConsumerState) (t e : String) :
    onmessageWizard st (.valid (.section_error t e)) = st
    ∧ onmessageReportForm st (.valid (.section_error t e)) = st :=
  ⟨rfl, rfl⟩

/-- No `report_complete` ever occurs among the per-section events. -/
theorem report_not_in_sectionEvents (resolve : String → SectionOutcome)
    (n : Nat) (c : String) :
    ∀ (i : Nat) (titles : List String),
      OrchEvent.report_complete c ∉ sectionEvents resolve n i titles := by
  intro i titles
  induction titles generalizing i with
  | nil => simp [sectionEvents]
  | cons t ts ih =>
      intro hmem
      rw [show sectionEvents resolve n i (t :: ts)
            = .section_start t (i * 100 / (n + 1)) ::
              resolutionEvent resolve n i t ::
              sectionEvents resolve n (i + 1) ts from rfl] at hmem
      rcases List.mem_cons.mp hmem with h1 | hmem
      · exact absurd h1 (by simp)
      rcases List.mem_cons.mp hmem with h2 | hmem
      · rw [resolutionEvent] at h2
        cases hr : resolve t <;> rw [hr] at h2 <;> simp at h2
      · exact ih (i + 1) hmem

/-- When every section fails, the Report Compiler receives no sections. -/
theorem completedSections_eq_nil {resolve : String → SectionOutcome}
    {titles : List String}
    (h : ∀ t ∈ titles, ∃ r, resolve t = .failed r) :
    completedSections resolve titles = [] := by
  induction titles with
  | nil => rfl
  | cons t ts ih =>
      obtain ⟨r, hr⟩ := h t (by simp)
      have hstep : completedSections resolve (t :: ts)
          = completedSections resolve ts := by
        rw [show completedSections resolve (t :: ts)
              = (match resolve t with
                 | .completed c s => (t, c, s) :: completedSections resolve ts
                 | .failed _ => completedSections resolve ts) from rfl, hr]
      rw [hstep]
      exact ih fun t' ht' => h t' (by simp [ht'])

/-- C7: For every session in which all sections fail, the event source
never emits `report_complete`: the Orchestrator skips compilation and the
stream ends with a fatal `error` event instead. -/
theorem C7_all_failed_no_report (maxS : Nat)
    (assemble : List (String × String × List Source) → String)
    (resolve : String → SectionOutcome) (topic : String)
    (titles : List String)
    (h : ∀ t ∈ titles, ∃ r, resolve t = .failed r) :
    (∀ c, OrchEvent.report_complete c ∉
        orchestrate maxS assemble resolve topic titles)
    ∧ ∃ m, (orchestrate maxS assemble resolve topic titles).getLast?
        = some (.error m) := by
  rw [orchestrate]
  by_cases hvalid : topic = "" ∨ titles.length = 0 ∨
      maxS < titles.length ∨ ¬ titles.Nodup
  · rw [if_pos hvalid]
    refine ⟨fun c hc => ?_, "Invalid request", rfl⟩
    simp at hc
  · rw [if_neg hvalid, completedSections_eq_nil h]
    constructor
    · intro c hc
      rcases List.mem_cons.mp hc with h1 | hc
      · exact absurd h1 (by simp)
      rcases List.mem_append.mp hc with h2 | h3
      · exact report_not_in_sectionEvents resolve titles.length c 0 titles h2
      · simp at h3
    · refine ⟨"All sections failed", ?_⟩
      rw [show (OrchEvent.status "Starting research" 0 ::
            (sectionEvents resolve titles.length 0 titles ++
              [OrchEvent.error "All sections failed"]))
          = (OrchEvent.status "Starting research" 0 ::
              sectionEvents resolve titles.length 0 titles) ++
            [OrchEvent.error "All sections failed"] from by simp]
      exact List.getLast?_concat _

/-- C7 witness: a concrete two-section session in which both sections fail
emits no `report_complete` and ends with the fatal error. -/
theorem C7_all_failed_no_report_witness :
    (OrchEvent.report_complete "x" ∉
      orchestrate 10 (fun _ => "") (fun _ => SectionOutcome.failed "boom")
        "AI in Healthcare" ["Introduction", "Conclusion"])
    ∧ (orchestrate 10 (fun _ => "") (fun _ => SectionOutcome.failed "boom")
        "AI in Healthcare" ["Introduction", "Conclusion"]).getLast?
      = some (.error "All sections failed") :=
  ⟨(C7_all_failed_no_report 10 (fun _ => "")
      (fun _ => SectionOutcome.failed "boom") "AI in Healthcare"
      ["Introduction", "Conclusion"] (fun t _ => ⟨"boom", rfl⟩)).1 "x",
   by decide⟩

/-- C8: A frame whose data is not valid JSON is caught, recorded as a
`server` connection error "Invalid server response format" (with the
stringified exception as details), and nothing else changes — the handler
is a total function, so it never throws; in the Wizard and in
ReportForm. -/
theorem C8_invalid_json (st : ConsumerState) (errStr : String) :
    onmessageWizard st (.invalidJson errStr) =
      { st with connectionError := some
                  { type := .server,
                    message := "Invalid server response format",
                    details := some errStr } }
    ∧ onmessageReportForm st (.invalidJson errStr) =
      { st with connectionError := some
                  { type := .server,
                    message := "Invalid server response format",
                    details := some errStr } } :=
  ⟨rfl, rfl⟩

/-- C9: An event that parses but whose `type` is none of the six known
strings changes no consumer state, in the Wizard (default branch only
logs) and in ReportForm (no default branch). -/
theorem C9_unknown_event_noop (st : ConsumerState) (ty : String) :
    onmessageWizard st (.valid (.unknown ty)) = st
    ∧ onmessageReportForm st (.valid (.unknown ty)) = st :=
  ⟨rfl, rfl⟩

/-- C10: Whenever `onopen` fires, the consumer becomes Connected, clears
any recorded connection error and resets the retry counter to zero — so a
later disconnection episode again has the full three-attempt budget. -/
theorem C10_onopen_resets (st : ConsumerState) :
    onopen st = { st with connectionState := .connected,
                          connectionError := none,
                          retryCount := 0 }
    ∧ (onopen st).retryCount = 0
    ∧ (retryEpisode 4 (onopen st)).1 = [1000, 3000, 5000] :=
  ⟨rfl, rfl, rfl⟩

end SRC
